import Mathlib

/-!
Verification of the Depth-Cloud repository natural-language specification
against a shallow embedding of its source code.

The embedding models JavaScript numbers as exact rationals (`ℚ`), canvas
pixel buffers as functions `Nat → Fin 256` (the `Uint8ClampedArray` byte
semantics of `ImageData`), and the per-pixel `Math.random()` draws of the
sampling gate as an explicit stream `Nat → ℚ` indexed by the row-major
pixel serial number.
-/

/-! ## Raster model -/

/-- A canvas with its backing pixel store: `data i` is the `i`-th byte of the
row-major RGBA buffer (stride 4, indexed at the width of the canvas itself). -/
structure Canvas where
  width : Nat
  height : Nat
  data : Nat → Fin 256

/-- Embeds `ctx.getImageData(0, 0, w, h).data` for a canvas `c`: bytes inside
the canvas are read from its buffer; any pixel of the requested `w × h`
rectangle lying outside the canvas reads as transparent black (byte 0),
which is the HTML canvas out-of-bounds semantics. -/
def getImageData (c : Canvas) (w : Nat) : Nat → Fin 256 := fun i =>
  let p := i / 4
  let ch := i % 4
  let x := p % w
  let y := p / w
  if x < c.width ∧ y < c.height then c.data ((y * c.width + x) * 4 + ch) else 0

/-! ## Point-cloud reconstruction (src/utils/imageProcessing.ts, generatePointCloudFromImages) -/

/-- Embeds `Math.max(0, Math.min(1, v))` (imageProcessing.ts lines 140-142). -/
def clamp01 (v : ℚ) : ℚ := max 0 (min 1 v)

/-- Embeds JavaScript `Math.round` on a real argument: round half toward
positive infinity, i.e. `⌊q + 1/2⌋`. -/
def jsRound (q : ℚ) : ℚ := ((⌊q + 1/2⌋ : ℤ) : ℚ)

/-- Embeds the voxel-mode color posterization `Math.floor(c * levels) / levels`
with `levels = 8` (imageProcessing.ts lines 120-123). -/
def posterize (c : ℚ) : ℚ := ((⌊c * 8⌋ : ℤ) : ℚ) / 8

/-- Embeds `const depthScale = Math.max(width, height) * 0.5`
(imageProcessing.ts line 80). -/
def depthScale (w h : Nat) : ℚ := ((max w h : Nat) : ℚ) * (1/2)

/-- Position triple `(pX, pY, pZ)` computed for pixel `(x, y)` from the depth
raster bytes (imageProcessing.ts lines 92-116): `pX = x - width/2`,
`pY = -(y - height/2)`, `pZ = (depthData[i]/255 - 0.5) * depthScale`, with
`pZ` snapped to the integer grid by `Math.round` in voxel mode. -/
def pointPosition (depthData : Nat → Fin 256) (w h : Nat) (isVoxelMode : Bool)
    (x y : Nat) : ℚ × ℚ × ℚ :=
  let i := (y * w + x) * 4
  let depthVal : ℚ := ((depthData i : Nat) : ℚ) / 255
  let cx : ℚ := (w : ℚ) / 2
  let cy : ℚ := (h : ℚ) / 2
  let pX : ℚ := (x : ℚ) - cx
  let pY : ℚ := -((y : ℚ) - cy)
  let pZ : ℚ := (depthVal - 1/2) * depthScale w h
  (pX, pY, if isVoxelMode then jsRound pZ else pZ)

/-- Color triple `(r, g, b)` computed for pixel `(x, y)` from the color raster
bytes (imageProcessing.ts lines 100-142): channels normalized to `[0,1]`;
voxel mode posterizes to 8 levels, boosts saturation away from luminance by
factor 1.3, point-cloud mode multiplies by 1.3; both clamp to `[0,1]`. -/
def pointColor (colorData : Nat → Fin 256) (w : Nat) (isVoxelMode : Bool)
    (x y : Nat) : ℚ × ℚ × ℚ :=
  let i := (y * w + x) * 4
  let r : ℚ := ((colorData i : Nat) : ℚ) / 255
  let g : ℚ := ((colorData (i + 1) : Nat) : ℚ) / 255
  let b : ℚ := ((colorData (i + 2) : Nat) : ℚ) / 255
  if isVoxelMode then
    let r1 := posterize r
    let g1 := posterize g
    let b1 := posterize b
    let gray := 299/1000 * r1 + 587/1000 * g1 + 114/1000 * b1
    let r2 := gray + (r1 - gray) * (13/10)
    let g2 := gray + (g1 - gray) * (13/10)
    let b2 := gray + (b1 - gray) * (13/10)
    (clamp01 r2, clamp01 g2, clamp01 b2)
  else
    (clamp01 (r * (13/10)), clamp01 (g * (13/10)), clamp01 (b * (13/10)))

/-- The sampling gate (imageProcessing.ts lines 88-90): pixel `p` (row-major
serial index) is skipped iff `samplingFactor < 1.0 && !isVoxelMode` and the
random draw of the pixel exceeds `samplingFactor`. -/
def sampleSkip (samplingFactor : ℚ) (isVoxelMode : Bool) (rand : Nat → ℚ)
    (p : Nat) : Bool :=
  decide (samplingFactor < 1) && !isVoxelMode && decide (rand p > samplingFactor)

/-- Flattens one `(a, b, c)` triple per list element into a flat buffer, in
order — the `positions[pIndex] = ...; pIndex += 3` write pattern of the
reconstruction loop. -/
def triples (f : Nat → ℚ × ℚ × ℚ) : List Nat → List ℚ
  | [] => []
  | p :: ps => (f p).1 :: (f p).2.1 :: (f p).2.2 :: triples f ps

/-- The `ProcessedPointCloud` record of src/types.ts, with the two
`Float32Array` buffers modelled as lists of exact rationals. -/
structure ProcessedPointCloud where
  positions : List ℚ
  colors : List ℚ
  count : Nat
  width : Nat
  height : Nat
deriving DecidableEq

/-- Reconstruction errors from the error taxonomy of the spec (spec §7). The source
of `generatePointCloudFromImages` can only throw when a canvas 2D context is
unavailable; it contains no dimension check, so no call site in the embedding
ever produces `dimensionMismatch`. -/
inductive PCError where
  | dimensionMismatch : PCError
  | contextUnavailable : PCError
deriving DecidableEq

/-- The body of `generatePointCloudFromImages` (imageProcessing.ts lines
46-165): dimensions are taken from the color canvas alone, both rasters are
read at those dimensions, and the row-major per-pixel loop keeps every pixel
that passes the sampling gate, appending one position triple and one color
triple per kept pixel. `rand p` is the `Math.random()` draw the gate would
consume at pixel `p`. The returned buffers are the prefix written by the loop —
the `slice(0, pIndex)` trim of the preallocated arrays. -/
def generatePointCloudCore (colorCanvas depthCanvas : Canvas)
    (samplingFactor : ℚ) (isVoxelMode : Bool) (rand : Nat → ℚ) :
    ProcessedPointCloud :=
  let width := colorCanvas.width
  let height := colorCanvas.height
  let colorData := getImageData colorCanvas width
  let depthData := getImageData depthCanvas width
  let kept := (List.range (width * height)).filter
    (fun p => !sampleSkip samplingFactor isVoxelMode rand p)
  { positions := triples
      (fun p => pointPosition depthData width height isVoxelMode (p % width) (p / width)) kept
    colors := triples
      (fun p => pointColor colorData width isVoxelMode (p % width) (p / width)) kept
    count := kept.length
    width := width
    height := height }

/-- `generatePointCloudFromImages` as the caller sees it: in the raster model
canvas contexts are always available, so the single `throw` site of the
source is unreachable and every call returns a point cloud. -/
def generatePointCloudFromImages (colorCanvas depthCanvas : Canvas)
    (samplingFactor : ℚ) (isVoxelMode : Bool) (rand : Nat → ℚ) :
    Except PCError ProcessedPointCloud :=
  Except.ok (generatePointCloudCore colorCanvas depthCanvas samplingFactor isVoxelMode rand)

/-- The Z coordinates of a flat position buffer: every third element. -/
def zCoords : List ℚ → List ℚ
  | _ :: _ :: z :: rest => z :: zCoords rest
  | _ => []

/-! ## Depth visualization filter (src/utils/imageProcessing.ts, applyColorMap) -/

/-- The contrast/intensity stage of `applyColorMap` (imageProcessing.ts lines
188-193): `val = ((val - 128) * contrast) + 128; val = val * intensity;
val = Math.max(0, Math.min(255, val))`. -/
def applyContrastIntensity (v contrast intensity : ℚ) : ℚ :=
  max 0 (min 255 (((v - 128) * contrast + 128) * intensity))

/-- The four-band heatmap of `applyColorMap` (imageProcessing.ts lines
195-221), applied to the already clamped value. -/
def heatmap (vq : ℚ) : ℚ × ℚ × ℚ :=
  let t := vq / 255
  if t < 33/100 then
    let localT := t / (33/100)
    (100 * localT, 0, 100 * localT)
  else if t < 66/100 then
    let localT := (t - 33/100) / (33/100)
    (100 + 155 * localT, 0, 100 * (1 - localT))
  else if t < 9/10 then
    let localT := (t - 66/100) / (24/100)
    (255, 255 * localT, 0)
  else
    let localT := (t - 9/10) / (1/10)
    (255, 255, 255 * localT)

/-- One iteration of the `applyColorMap` pixel loop (imageProcessing.ts lines
184-231): reads the red byte of the pixel `v` (the source assumes r = g = b),
applies contrast, intensity and the `[0,255]` clamp, then writes either the
grayscale triple or the heatmap triple into the RGB channels. -/
def applyColorMapPixel (v : Fin 256) (contrast intensity : ℚ)
    (colorize : Bool) : ℚ × ℚ × ℚ :=
  let val := applyContrastIntensity ((v : Nat) : ℚ) contrast intensity
  if colorize then heatmap val else (val, val, val)

/-- The `applyColorMap` loop over the raster, one red-channel byte per pixel
(stride 4 in the source buffer; the alpha channel is never written). -/
def applyColorMap (pixels : List (Fin 256)) (contrast intensity : ℚ)
    (colorize : Bool) : List (ℚ × ℚ × ℚ) :=
  pixels.map (fun v => applyColorMapPixel v contrast intensity colorize)

/-- Modelled from the spec: `v' = clamp(((v - 128) * contrast + 128) *
intensity, 0, 255)`, with `clamp(x, lo, hi) = min hi (max lo x)` — written
independently of the `max 0 (min 255 ·)` composition in the source to compare
the two. -/
def clampSpecV (v contrast intensity : ℚ) : ℚ :=
  min 255 (max 0 (((v - 128) * contrast + 128) * intensity))

/-! ## Gesture tracker (src/components/HandController.tsx, onResults) -/

/-- A MediaPipe hand landmark (normalized coordinates). -/
structure Landmark where
  x : ℚ
  y : ℚ
  z : ℚ
deriving DecidableEq

/-- Models `Math.sqrt` on rationals. It is exact on every input whose
numerator and denominator are perfect squares — which covers every concrete
geometric instance used below; the real square root of other rationals has no
exact rational representation. -/
def ratSqrt (q : ℚ) : ℚ := ((Nat.sqrt q.num.toNat : Nat) : ℚ) / ((Nat.sqrt q.den : Nat) : ℚ)

/-- Euclidean distance between two landmarks in the x/y plane, as computed by
`Math.sqrt(Math.pow(ax - bx, 2) + Math.pow(ay - by, 2))` (HandController
lines 290-298). -/
def landmarkDist (a b : Landmark) : ℚ := ratSqrt ((a.x - b.x) ^ 2 + (a.y - b.y) ^ 2)

/-- The divisor of the raw pinch ratio: embeds the JavaScript expression
`(handSize || 0.1)` of HandController line 300 — `0.1` is substituted only
when `handSize` is exactly `0` (falsy); any nonzero value, however small,
is used as is. -/
def pinchDivisor (handSize : ℚ) : ℚ := if handSize = 0 then 1/10 else handSize

/-- Modelled from the spec: the raw pinch ratio as §4.4 words it, with the
divisor floored at 0.1 — `rawRatio = pinchDistance / max(handSize, 0.1)`. -/
def rawRatioSpec (pinchDist handSize : ℚ) : ℚ := pinchDist / max handSize (1/10)

/-- Embeds JavaScript `Math.sign`. -/
def jsSign (d : ℚ) : ℚ := if 0 < d then 1 else if d < 0 then -1 else 0

/-- Embeds `Math.pow(d, 1.5)` for the nonnegative argument `Math.abs(raw)`
used by the rotation curve, via `d^1.5 = sqrt(d^3)`. -/
def pow15 (d : ℚ) : ℚ := ratSqrt (d ^ 3)

/-- The two sensitivity presets of the tracker. -/
inductive Sensitivity where
  | normal : Sensitivity
  | precise : Sensitivity
deriving DecidableEq

/-- The per-session mutable state of `HandController`: the published
`HandGestures` fields (`rotX`, `rotY`, `scale`, `isTracking` of
`gesturesRef`), the persistent zoom refs (`zoomLevelRef`,
`zoomVelocityRef`, `pinchRatioSmoothed`), and `trackingState`
(`true` = tracking, `false` = lost). -/
structure GestureState where
  rotX : ℚ
  rotY : ℚ
  scale : ℚ
  isTracking : Bool
  zoomLevel : ℚ
  zoomVelocity : ℚ
  pinchRatioSmoothed : ℚ
  tracking : Bool
deriving DecidableEq

/-- The initial state of the controller refs (HandController lines 58-67):
scale and zoom level 1.2, zoom velocity 0, smoothed pinch ratio 0.5. -/
def gestureInit : GestureState :=
  { rotX := 0, rotY := 0, scale := 6/5, isTracking := false,
    zoomLevel := 6/5, zoomVelocity := 0, pinchRatioSmoothed := 1/2,
    tracking := false }

/-- Landmark mirroring (HandController lines 234-236): when the mirror flag
is set, the x of every landmark becomes `1 - x`. -/
def mirrorLandmarks (mirrored : Bool) (lm : Nat → Landmark) : Nat → Landmark :=
  if mirrored then fun i => { lm i with x := 1 - (lm i).x } else lm

/-- One step of the hand role assignment scan (HandController lines 229-240):
mirroring is applied to the landmarks, then a hand labelled "Right" becomes
the rotate hand and one labelled "Left" the zoom hand, a later hand of the
same label overwriting an earlier one. -/
def assignStep (mirrored : Bool)
    (acc : Option (Nat → Landmark) × Option (Nat → Landmark))
    (h : String × (Nat → Landmark)) :
    Option (Nat → Landmark) × Option (Nat → Landmark) :=
  let finalLandmarks := mirrorLandmarks mirrored h.2
  if h.1 = "Right" then (some finalLandmarks, acc.2)
  else if h.1 = "Left" then (acc.1, some finalLandmarks)
  else acc

/-- Hand role assignment: the `forEach` over `multiHandedness` as a fold of
`assignStep` over the detected hands, starting from no assigned roles. -/
def assignHands (mirrored : Bool) (hands : List (String × (Nat → Landmark))) :
    Option (Nat → Landmark) × Option (Nat → Landmark) :=
  hands.foldl (assignStep mirrored) (none, none)

/-- The rotation joystick (HandController lines 252-257): offset of the index
fingertip (landmark 8) from frame center, power curve 1.5, sign restored,
scaled by the `ROT_SPEED` of the sensitivity preset; returns `(rotX, rotY)`. -/
def rotationFrom (sens : Sensitivity) (rh : Nat → Landmark) : ℚ × ℚ :=
  let rotSpeed : ℚ := if sens = Sensitivity.normal then 3/20 else 1/20
  let indexTip := rh 8
  let rawDx := (indexTip.x - 1/2) * 2
  let rawDy := (indexTip.y - 1/2) * 2
  (pow15 |rawDy| * jsSign rawDy * rotSpeed, pow15 |rawDx| * jsSign rawDx * rotSpeed)

/-- The zoom throttle update (HandController lines 285-327): hand size from
wrist (0) to middle-finger MCP (9), pinch distance from thumb tip (4) to
index tip (8), raw ratio with the `(handSize || 0.1)` divisor, exponential
smoothing 0.9/0.1, dead zone `[0.35, 0.75]` with quadratic ramps, velocity
blend 0.85/0.15 with a `1e-4` snap to zero, and zoom level integration
clamped to `[0.1, 12.0]`. -/
def zoomUpdate (sens : Sensitivity) (zh : Nat → Landmark)
    (st : GestureState) : GestureState :=
  let zoomMaxSpeed : ℚ := if sens = Sensitivity.normal then 2/25 else 3/100
  let handSize := landmarkDist (zh 0) (zh 9)
  let pinchDist := landmarkDist (zh 4) (zh 8)
  let rawRatioNow := pinchDist / pinchDivisor handSize
  let smoothed := st.pinchRatioSmoothed * (9/10) + rawRatioNow * (1/10)
  let ratioNow := smoothed
  let targetSpeed : ℚ :=
    if ratioNow < 7/20 then
      let intensity := 1 - ratioNow / (7/20)
      (-zoomMaxSpeed) * intensity ^ 2
    else if ratioNow > 3/4 then
      let intensity := min 1 ((ratioNow - 3/4) / (2/5))
      zoomMaxSpeed * intensity ^ 2
    else 0
  let zv1 := st.zoomVelocity * (17/20) + targetSpeed * (3/20)
  let zv2 := if |zv1| < 1/10000 then 0 else zv1
  let zl := max (1/10) (min (st.zoomLevel + zv2) 12)
  { st with pinchRatioSmoothed := smoothed, zoomVelocity := zv2, zoomLevel := zl }

/-- The gesture math of one `onResults` frame (HandController lines 196-387,
drawing elided): with at least one detected hand, roles are assigned, the
rotation velocity is recomputed (zero if no rotate hand), the zoom state is
updated if a zoom hand is present and otherwise `zoomVelocity` is zeroed,
and the published signal becomes
`{rotation, scale: zoomLevel, isTracking: true}`; with no hands, only
`isTracking` and `rotation` of the published signal are touched and the
tracking state becomes lost. -/
def onResults (mirrored : Bool) (sens : Sensitivity)
    (hands : List (String × (Nat → Landmark))) (st : GestureState) :
    GestureState :=
  if hands.length > 0 then
    let roles := assignHands mirrored hands
    let rot : ℚ × ℚ :=
      match roles.1 with
      | some rh => rotationFrom sens rh
      | none => (0, 0)
    let st1 :=
      match roles.2 with
      | some zh => zoomUpdate sens zh st
      | none => { st with zoomVelocity := 0 }
    { st1 with rotX := rot.1, rotY := rot.2, scale := st1.zoomLevel,
               isTracking := true, tracking := true }
  else
    { st with isTracking := false, rotX := 0, rotY := 0, tracking := false }

/-! ## Concrete instances used by witnesses and counterexamples -/

/-- A random stream that never skips a pixel (every draw is 0). -/
def rand0 : Nat → ℚ := fun _ => 0

/-- A 2 × 1 canvas whose bytes are all 0. -/
def canv2x1Black : Canvas := ⟨2, 1, fun _ => 0⟩

/-- A 1 × 1 canvas whose bytes are all 255. -/
def canv1x1White : Canvas := ⟨1, 1, fun _ => 255⟩

/-- A 2 × 1 canvas whose bytes are all 255. -/
def canv2x1White : Canvas := ⟨2, 1, fun _ => 255⟩

/-- A degenerate zoom hand: thumb tip and wrist at the origin, index tip at
x = 0.1, middle-finger MCP at x = 0.05, so the hand size is 0.05 — nonzero
but below the 0.1 floor claimed by the spec. -/
def lmPinchSmall : Nat → Landmark := fun i =>
  if i = 8 then ⟨1/10, 0, 0⟩ else if i = 9 then ⟨1/20, 0, 0⟩ else ⟨0, 0, 0⟩

/-- A hand with every landmark at the frame center. -/
def lmCenter : Nat → Landmark := fun _ => ⟨1/2, 1/2, 0⟩

/-- A tracker state carrying leftover zoom momentum of 0.1. -/
def stMoving : GestureState :=
  { gestureInit with zoomVelocity := 1/10, isTracking := true, tracking := true }

/-! ## Helper lemmas -/

theorem triples_length (f : Nat → ℚ × ℚ × ℚ) (l : List Nat) :
    (triples f l).length = 3 * l.length := by
  induction l with
  | nil => simp [triples]
  | cons p ps ih => simp [triples, ih]; ring

theorem zCoords_triples (f : Nat → ℚ × ℚ × ℚ) (l : List Nat) :
    zCoords (triples f l) = l.map (fun p => (f p).2.2) := by
  induction l with
  | nil => rfl
  | cons p ps ih => simp only [triples, zCoords, ih, List.map_cons]

theorem sampleSkip_one (isVoxelMode : Bool) (rand : Nat → ℚ) (p : Nat) :
    sampleSkip 1 isVoxelMode rand p = false := by
  simp [sampleSkip]

theorem sampleSkip_voxel (samplingFactor : ℚ) (rand : Nat → ℚ) (p : Nat) :
    sampleSkip samplingFactor true rand p = false := by
  simp [sampleSkip]

theorem foldl_assignStep_snd (mirrored : Bool)
    (hands : List (String × (Nat → Landmark)))
    (hnoleft : ∀ hd ∈ hands, hd.1 ≠ "Left")
    (acc : Option (Nat → Landmark) × Option (Nat → Landmark)) :
    (hands.foldl (assignStep mirrored) acc).2 = acc.2 := by
  induction hands generalizing acc with
  | nil => rfl
  | cons hd tl ih =>
    have hhd : hd.1 ≠ "Left" := hnoleft hd (List.mem_cons_self hd tl)
    have htl : ∀ x ∈ tl, x.1 ≠ "Left" := fun x hx => hnoleft x (List.mem_cons_of_mem hd hx)
    rw [List.foldl_cons, ih htl]
    unfold assignStep
    by_cases hr : hd.1 = "Right" <;> simp [hr, hhd]

theorem assignHands_snd_none (mirrored : Bool)
    (hands : List (String × (Nat → Landmark)))
    (hnoleft : ∀ hd ∈ hands, hd.1 ≠ "Left") :
    (assignHands mirrored hands).2 = none :=
  foldl_assignStep_snd mirrored hands hnoleft (none, none)

theorem depthScale_nonneg (w h : Nat) : 0 ≤ depthScale w h := by
  unfold depthScale
  positivity

theorem byte_div_bounds (b : Fin 256) :
    0 ≤ ((b : Nat) : ℚ) / 255 ∧ ((b : Nat) : ℚ) / 255 ≤ 1 := by
  constructor
  · positivity
  · rw [div_le_one (by norm_num)]
    exact_mod_cast Nat.le_of_lt_succ b.isLt

theorem pointPosition_z_point (depthData : Nat → Fin 256) (w h x y : Nat) :
    (pointPosition depthData w h false x y).2.2 =
      (((depthData ((y * w + x) * 4) : Nat) : ℚ) / 255 - 1/2) * depthScale w h := by
  simp [pointPosition]

theorem pointPosition_z_voxel (depthData : Nat → Fin 256) (w h x y : Nat) :
    (pointPosition depthData w h true x y).2.2 =
      jsRound ((((depthData ((y * w + x) * 4) : Nat) : ℚ) / 255 - 1/2) * depthScale w h) := by
  simp [pointPosition]

theorem pz_raw_bounds (depthData : Nat → Fin 256) (w h x y : Nat) :
    -(depthScale w h) / 2 ≤ (pointPosition depthData w h false x y).2.2 ∧
      (pointPosition depthData w h false x y).2.2 ≤ depthScale w h / 2 := by
  obtain ⟨h0, h1⟩ := byte_div_bounds (depthData ((y * w + x) * 4))
  have hS := depthScale_nonneg w h
  rw [pointPosition_z_point]
  constructor
  · nlinarith
  · nlinarith

theorem jsRound_le {q b : ℚ} (h : q ≤ b) : jsRound q ≤ b + 1/2 := by
  unfold jsRound
  have := Int.floor_le (q + 1/2)
  linarith

theorem le_jsRound {q a : ℚ} (h : a ≤ q) : a - 1/2 ≤ jsRound q := by
  unfold jsRound
  have := Int.sub_one_lt_floor (q + 1/2)
  linarith

theorem core_eval_mismatch :
    generatePointCloudCore canv2x1Black canv1x1White 1 false rand0 =
      { positions := [-1, 1/2, 1/2, 0, 1/2, -1/2],
        colors := [0, 0, 0, 0, 0, 0],
        count := 2, width := 2, height := 1 } := by
  have hf : (List.range (2*1)).filter (fun p => !sampleSkip 1 false rand0 p) = [0, 1] := by
    norm_num [sampleSkip]
    rfl
  norm_num [generatePointCloudCore, canv2x1Black, canv1x1White, hf, triples,
    pointPosition, pointColor, getImageData, depthScale, clamp01,
    (show ((255 : Fin 256) : Nat) = 255 from rfl),
    (show ((0 : Fin 256) : Nat) = 0 from rfl)]

theorem core_eval_voxel_white :
    generatePointCloudCore canv2x1Black canv2x1White 1 true rand0 =
      { positions := [-1, 1/2, 1, 0, 1/2, 1],
        colors := [0, 0, 0, 0, 0, 0],
        count := 2, width := 2, height := 1 } := by
  have hf : (List.range (2*1)).filter (fun p => !sampleSkip 1 true rand0 p) = [0, 1] := by
    norm_num [sampleSkip]
    rfl
  norm_num [generatePointCloudCore, canv2x1Black, canv2x1White, hf, triples,
    pointPosition, pointColor, getImageData, depthScale, clamp01, jsRound, posterize,
    (show ((255 : Fin 256) : Nat) = 255 from rfl),
    (show ((0 : Fin 256) : Nat) = 0 from rfl)]

theorem core_eval_black_point :
    generatePointCloudCore canv2x1Black canv2x1Black 1 false rand0 =
      { positions := [-1, 1/2, -1/2, 0, 1/2, -1/2],
        colors := [0, 0, 0, 0, 0, 0],
        count := 2, width := 2, height := 1 } := by
  have hf : (List.range (2*1)).filter (fun p => !sampleSkip 1 false rand0 p) = [0, 1] := by
    norm_num [sampleSkip]
    rfl
  norm_num [generatePointCloudCore, canv2x1Black, hf, triples,
    pointPosition, pointColor, getImageData, depthScale, clamp01,
    (show ((0 : Fin 256) : Nat) = 0 from rfl)]

/-! ## Claim theorems -/

/-- C1 (counterexample): a 2×1 color canvas paired with a 1×1 depth canvas —
dimensions differ — does not fail at all, let alone with `DimensionMismatch`:
the call returns a full point cloud at the dimensions of the color canvas, the
out-of-range depth read of pixel (1,0) silently yielding byte 0. -/
theorem c1_counterexample_mismatch_succeeds :
    canv2x1Black.width ≠ canv1x1White.width ∧
    generatePointCloudFromImages canv2x1Black canv1x1White 1 false rand0 =
      Except.ok { positions := [-1, 1/2, 1/2, 0, 1/2, -1/2],
                  colors := [0, 0, 0, 0, 0, 0],
                  count := 2, width := 2, height := 1 } := by
  refine ⟨by decide, ?_⟩
  rw [generatePointCloudFromImages, core_eval_mismatch]

/-- C1 (amended): `generatePointCloudFromImages` performs no dimension
validation: for every pair of canvases, matching or not, the call never
fails with any error — in particular never with `DimensionMismatch` — and
the cloud is computed at the width and height of the color canvas, out-of-bounds
reads of the depth raster yielding byte 0. -/
theorem c1_reconstruct_never_errors (colorCanvas depthCanvas : Canvas)
    (samplingFactor : ℚ) (isVoxelMode : Bool) (rand : Nat → ℚ) :
    (∀ e : PCError,
      generatePointCloudFromImages colorCanvas depthCanvas samplingFactor isVoxelMode rand ≠
        Except.error e) ∧
    (generatePointCloudCore colorCanvas depthCanvas samplingFactor isVoxelMode rand).width
        = colorCanvas.width ∧
    (generatePointCloudCore colorCanvas depthCanvas samplingFactor isVoxelMode rand).height
        = colorCanvas.height := by
  refine ⟨fun e h => ?_, rfl, rfl⟩
  simp [generatePointCloudFromImages] at h

/-- C1 (witness): the never-fails statement instantiated at a concrete
mismatched pair and the `DimensionMismatch` error. -/
theorem c1_witness :
    generatePointCloudFromImages canv2x1Black canv1x1White 1 false rand0 ≠
      Except.error PCError.dimensionMismatch :=
  (c1_reconstruct_never_errors canv2x1Black canv1x1White 1 false rand0).1
    PCError.dimensionMismatch

/-- C2: for equal-dimension inputs, full density retains every pixel: with
`samplingFactor = 1` in point-cloud mode the count is `W*H` and both buffers
have `3*W*H` elements, and in voxel mode the count is `W*H` for every
sampling factor. -/
theorem c2_full_density_retains_all (colorCanvas depthCanvas : Canvas) (rand : Nat → ℚ)
    (_hw : colorCanvas.width = depthCanvas.width)
    (_hh : colorCanvas.height = depthCanvas.height) :
    ((generatePointCloudCore colorCanvas depthCanvas 1 false rand).count
        = colorCanvas.width * colorCanvas.height ∧
      (generatePointCloudCore colorCanvas depthCanvas 1 false rand).positions.length
        = 3 * (colorCanvas.width * colorCanvas.height) ∧
      (generatePointCloudCore colorCanvas depthCanvas 1 false rand).colors.length
        = 3 * (colorCanvas.width * colorCanvas.height)) ∧
    ∀ samplingFactor : ℚ,
      (generatePointCloudCore colorCanvas depthCanvas samplingFactor true rand).count
        = colorCanvas.width * colorCanvas.height := by
  constructor
  · have hkeep : (List.range (colorCanvas.width * colorCanvas.height)).filter
        (fun p => !sampleSkip 1 false rand p)
        = List.range (colorCanvas.width * colorCanvas.height) :=
      List.filter_eq_self.mpr (fun a _ => by simp [sampleSkip_one])
    unfold generatePointCloudCore
    simp [hkeep, triples_length, List.length_range]
  · intro samplingFactor
    have hkeep : (List.range (colorCanvas.width * colorCanvas.height)).filter
        (fun p => !sampleSkip samplingFactor true rand p)
        = List.range (colorCanvas.width * colorCanvas.height) :=
      List.filter_eq_self.mpr (fun a _ => by simp [sampleSkip_voxel])
    unfold generatePointCloudCore
    simp only [hkeep, List.length_range]

/-- C2 (witness): the retention statement at a concrete 2×1 pair, point-cloud
mode at density 1 and voxel mode at density 0. -/
theorem c2_witness :
    (generatePointCloudCore canv2x1Black canv2x1Black 1 false rand0).count
        = canv2x1Black.width * canv2x1Black.height ∧
    (generatePointCloudCore canv2x1Black canv2x1Black 0 true rand0).count
        = canv2x1Black.width * canv2x1Black.height :=
  ⟨(c2_full_density_retains_all canv2x1Black canv2x1Black rand0 rfl rfl).1.1,
   (c2_full_density_retains_all canv2x1Black canv2x1Black rand0 rfl rfl).2 0⟩

/-- C3: every returned point cloud, in every mode and at every sampling
density, satisfies `positions.length = colors.length = 3 * count`; the
buffers are exactly the written prefix, with no tail capacity. -/
theorem c3_buffer_invariant (colorCanvas depthCanvas : Canvas)
    (samplingFactor : ℚ) (isVoxelMode : Bool) (rand : Nat → ℚ) :
    (generatePointCloudCore colorCanvas depthCanvas samplingFactor isVoxelMode rand).positions.length
      = (generatePointCloudCore colorCanvas depthCanvas samplingFactor isVoxelMode rand).colors.length ∧
    (generatePointCloudCore colorCanvas depthCanvas samplingFactor isVoxelMode rand).colors.length
      = 3 * (generatePointCloudCore colorCanvas depthCanvas samplingFactor isVoxelMode rand).count := by
  unfold generatePointCloudCore
  simp [triples_length]

/-- C4: at full density the sampling gate never consults the random stream,
so two calls on identical inputs produce identical output in both modes —
reconstruction at density 1 is deterministic. -/
theorem c4_full_density_deterministic (colorCanvas depthCanvas : Canvas)
    (isVoxelMode : Bool) (rand1 rand2 : Nat → ℚ) :
    generatePointCloudCore colorCanvas depthCanvas 1 isVoxelMode rand1 =
      generatePointCloudCore colorCanvas depthCanvas 1 isVoxelMode rand2 := by
  unfold generatePointCloudCore
  simp only [sampleSkip_one]

/-- C5 (counterexample): on a 2×1 equal-dimension pair with depth byte 255,
voxel mode rounds `pZ = 0.5 * depthScale = 0.5` up to 1, which exceeds
`depthScale/2 = 0.5` — the claimed interval does not hold in voxel mode. -/
theorem c5_counterexample_voxel_exceeds :
    (1 : ℚ) ∈ zCoords (generatePointCloudCore canv2x1Black canv2x1White 1 true rand0).positions ∧
    ¬ ((1 : ℚ) ≤ depthScale canv2x1Black.width canv2x1Black.height / 2) := by
  constructor
  · rw [core_eval_voxel_white]
    simp [zCoords]
  · norm_num [depthScale, canv2x1Black]

/-- C5 (amended): for every equal-dimension input pair, every stored `posZ`
lies in `[-depthScale/2, depthScale/2]` in point-cloud mode; in voxel mode
`posZ` is the integer rounding of such a value, hence an integer lying in
the half-unit-widened interval `[-depthScale/2 - 1/2, depthScale/2 + 1/2]`. -/
theorem c5_posZ_bounds (colorCanvas depthCanvas : Canvas)
    (samplingFactor : ℚ) (isVoxelMode : Bool) (rand : Nat → ℚ)
    (_hw : colorCanvas.width = depthCanvas.width)
    (_hh : colorCanvas.height = depthCanvas.height) :
    ∀ z ∈ zCoords (generatePointCloudCore colorCanvas depthCanvas
        samplingFactor isVoxelMode rand).positions,
      (isVoxelMode = false →
        -(depthScale colorCanvas.width colorCanvas.height) / 2 ≤ z ∧
          z ≤ depthScale colorCanvas.width colorCanvas.height / 2) ∧
      (isVoxelMode = true →
        (-(depthScale colorCanvas.width colorCanvas.height) / 2 - 1/2 ≤ z ∧
          z ≤ depthScale colorCanvas.width colorCanvas.height / 2 + 1/2) ∧
        ∃ k : ℤ, z = (k : ℚ)) := by
  intro z hz
  unfold generatePointCloudCore at hz
  simp only [zCoords_triples, List.mem_map] at hz
  obtain ⟨p, _, hp⟩ := hz
  obtain ⟨hlo, hhi⟩ := pz_raw_bounds (getImageData depthCanvas colorCanvas.width)
    colorCanvas.width colorCanvas.height (p % colorCanvas.width) (p / colorCanvas.width)
  constructor
  · intro hmode
    subst hmode
    exact hp ▸ ⟨hlo, hhi⟩
  · intro hmode
    subst hmode
    rw [pointPosition_z_voxel] at hp
    rw [pointPosition_z_point] at hlo hhi
    refine ⟨⟨hp ▸ le_jsRound hlo, hp ▸ jsRound_le hhi⟩, ?_⟩
    exact hp ▸ ⟨⌊(((getImageData depthCanvas colorCanvas.width
      (((p / colorCanvas.width) * colorCanvas.width + p % colorCanvas.width) * 4) : Nat) : ℚ)
        / 255 - 1/2) * depthScale colorCanvas.width colorCanvas.height + 1/2⌋, rfl⟩

/-- C5 (witness): the bound statement at a concrete all-black 2×1 pair in
point-cloud mode, at the stored Z value −1/2. -/
theorem c5_witness :
    -(depthScale canv2x1Black.width canv2x1Black.height) / 2 ≤ (-1/2 : ℚ) ∧
      (-1/2 : ℚ) ≤ depthScale canv2x1Black.width canv2x1Black.height / 2 :=
  (c5_posZ_bounds canv2x1Black canv2x1Black 1 false rand0 rfl rfl (-1/2)
    (by rw [core_eval_black_point]; simp [zCoords])).1 rfl

/-- C6 (counterexample): a raster byte of 255 — a pure-white channel —
posterizes to `floor(1.0 * 8)/8 = 8/8 = 1`, which is not in the claimed
8-element set `{0/8, ..., 7/8}`. -/
theorem c6_counterexample_white_channel :
    posterize (((getImageData canv1x1White 1 0 : Nat) : ℚ) / 255) = 1 ∧
    (1 : ℚ) ∉ ([0, 1/8, 2/8, 3/8, 4/8, 5/8, 6/8, 7/8] : List ℚ) := by
  constructor
  · norm_num [posterize, getImageData, canv1x1White,
      (show ((255 : Fin 256) : Nat) = 255 from rfl)]
  · norm_num

/-- C6 (amended): the posterized value of any raster byte — the voxel-mode
channel value after posterization and before the saturation boost — is
`k/8` for an integer `0 ≤ k ≤ 8`: nine levels, the ninth (`8/8 = 1`)
attained exactly at byte 255. -/
theorem c6_posterize_levels (c : Canvas) (w i : Nat) :
    ∃ k : ℤ, 0 ≤ k ∧ k ≤ 8 ∧
      posterize (((getImageData c w i : Nat) : ℚ) / 255) = (k : ℚ) / 8 := by
  set b : Fin 256 := getImageData c w i with hb
  refine ⟨⌊((b : Nat) : ℚ) / 255 * 8⌋, ?_, ?_, rfl⟩
  · exact Int.floor_nonneg.mpr (by positivity)
  · have hble : ((b : Nat) : ℚ) ≤ 255 := by exact_mod_cast Nat.le_of_lt_succ b.isLt
    have : ((b : Nat) : ℚ) / 255 * 8 ≤ 8 := by
      rw [div_mul_eq_mul_div, div_le_iff₀ (by norm_num : (0:ℚ) < 255)]
      linarith
    calc ⌊((b : Nat) : ℚ) / 255 * 8⌋ ≤ ⌊(8 : ℚ)⌋ := Int.floor_le_floor this
    _ = 8 := by norm_num

/-- C7 (counterexample): a zoom hand with hand size exactly 0.05 — nonzero
and below 0.1 — with pinch distance 0.1. The code divides by the raw hand
size (`handSize || 0.1` only replaces an exact zero), giving raw ratio 2 and
smoothed ratio 13/20 from the initial state; the spec formula
`pinchDistance / max(handSize, 0.1)` would give raw ratio 1 and smoothed
ratio 11/20. -/
theorem c7_counterexample_small_hand :
    landmarkDist (lmPinchSmall 0) (lmPinchSmall 9) = 1/20 ∧
    ((1/20 : ℚ) ≠ 0 ∧ (1/20 : ℚ) < 1/10) ∧
    pinchDivisor (1/20) = 1/20 ∧
    (onResults false Sensitivity.normal [("Left", lmPinchSmall)]
      gestureInit).pinchRatioSmoothed = 13/20 ∧
    gestureInit.pinchRatioSmoothed * (9/10) + rawRatioSpec (1/10) (1/20) * (1/10) = 11/20 ∧
    (13/20 : ℚ) ≠ 11/20 := by
  refine ⟨?_, ⟨by norm_num, by norm_num⟩, ?_, ?_, ?_, by norm_num⟩
  · norm_num [landmarkDist, ratSqrt, lmPinchSmall]
  · norm_num [pinchDivisor]
  · have h1 : assignHands false [("Left", lmPinchSmall)] = (none, some lmPinchSmall) := rfl
    have h2 : (zoomUpdate Sensitivity.normal lmPinchSmall gestureInit).pinchRatioSmoothed
        = 13/20 := by
      norm_num [zoomUpdate, landmarkDist, ratSqrt, pinchDivisor, gestureInit, lmPinchSmall]
    simp only [onResults, h1, List.length_cons, List.length_nil]
    norm_num [h2]
  · norm_num [rawRatioSpec, gestureInit]

/-- C7 (amended): the raw pinch ratio divides by `(handSize || 0.1)`: the
divisor is 0.1 exactly when `handSize = 0`, and is `handSize` itself for
every nonzero hand size — including sizes strictly below 0.1; the spec formula
`max(handSize, 0.1)` agrees with the code only when `handSize = 0`
or `handSize ≥ 0.1`. -/
theorem c7_pinch_divisor (handSize pinchDist : ℚ) :
    (handSize = 0 →
      pinchDivisor handSize = 1/10 ∧
        pinchDist / pinchDivisor handSize = rawRatioSpec pinchDist handSize) ∧
    (handSize ≠ 0 → pinchDivisor handSize = handSize) ∧
    (1/10 ≤ handSize →
      pinchDist / pinchDivisor handSize = rawRatioSpec pinchDist handSize) := by
  refine ⟨?_, ?_, ?_⟩
  · intro h0
    subst h0
    constructor
    · simp [pinchDivisor]
    · simp [pinchDivisor, rawRatioSpec]
  · intro hne
    simp [pinchDivisor, hne]
  · intro hge
    have hne : handSize ≠ 0 := by
      intro h0
      rw [h0] at hge
      norm_num at hge
    rw [pinchDivisor, if_neg hne, rawRatioSpec, max_eq_left hge]

/-- C7 (witness): the agreement case at `handSize = 1/5 ≥ 0.1`,
`pinchDist = 1/10`. -/
theorem c7_witness :
    (1/10 : ℚ) / pinchDivisor (1/5) = rawRatioSpec (1/10) (1/5) :=
  (c7_pinch_divisor (1/5) (1/10)).2.2 (by norm_num)

/-- C8 (counterexample): in a frame with zero detected hands, leftover zoom
momentum is not reset: from a state with `zoomVelocity = 1/10`, the update
leaves it at `1/10 ≠ 0`, contradicting the claim that the reset covers
frames with no hands at all. -/
theorem c8_counterexample_no_hands_keeps_velocity :
    stMoving.zoomVelocity = 1/10 ∧ ((1/10 : ℚ) ≠ 0) ∧
    (onResults true Sensitivity.normal [] stMoving).zoomVelocity = 1/10 := by
  refine ⟨rfl, by norm_num, ?_⟩
  norm_num [onResults, stMoving, gestureInit]

/-- C8 (amended): `zoomVelocity` is zeroed exactly in the frames where some
hand is detected but none is labelled "Left"; in a frame with no hands at
all the velocity is left untouched (the no-hands branch only clears the
published rotation and tracking flags). -/
theorem c8_zoom_velocity_reset (mirrored : Bool) (sens : Sensitivity)
    (hands : List (String × (Nat → Landmark))) (st : GestureState)
    (hnoleft : ∀ hd ∈ hands, hd.1 ≠ "Left") :
    (hands ≠ [] → (onResults mirrored sens hands st).zoomVelocity = 0) ∧
    (hands = [] → (onResults mirrored sens hands st).zoomVelocity = st.zoomVelocity) := by
  constructor
  · intro hne
    have hlen : 0 < hands.length := List.length_pos.mpr hne
    have hsnd : (assignHands mirrored hands).2 = none :=
      assignHands_snd_none mirrored hands hnoleft
    simp only [onResults, if_pos hlen, hsnd]
  · intro he
    subst he
    simp [onResults]

/-- C8 (witness): a frame with only a "Right" hand zeroes the leftover
momentum of `stMoving`. -/
theorem c8_witness :
    (onResults true Sensitivity.normal [("Right", lmCenter)] stMoving).zoomVelocity = 0 :=
  (c8_zoom_velocity_reset true Sensitivity.normal [("Right", lmCenter)] stMoving
    (by intro hd hhd; simp only [List.mem_singleton] at hhd; subst hhd; decide)).1
    (by simp)

/-- C9: a frame with zero detected hands publishes `isTracking = false` and
rotation `(0, 0)`, marks tracking lost, and leaves both the published scale
and the persistent zoom level unchanged. -/
theorem c9_no_hands_keeps_zoom (mirrored : Bool) (sens : Sensitivity)
    (st : GestureState) :
    (onResults mirrored sens [] st).isTracking = false ∧
    (onResults mirrored sens [] st).rotX = 0 ∧
    (onResults mirrored sens [] st).rotY = 0 ∧
    (onResults mirrored sens [] st).scale = st.scale ∧
    (onResults mirrored sens [] st).zoomLevel = st.zoomLevel ∧
    (onResults mirrored sens [] st).tracking = false := by
  simp [onResults]

/-- C10: the depth visualization filter computes
`v' = clamp(((v - 128) * contrast + 128) * intensity, 0, 255)` per pixel,
and with the colorize flag off it outputs the grayscale triple
`(v', v', v')` for every pixel of the raster. -/
theorem c10_grayscale_filter (pixels : List (Fin 256)) (contrast intensity : ℚ) :
    applyColorMap pixels contrast intensity false =
      pixels.map (fun v =>
        (clampSpecV ((v : Nat) : ℚ) contrast intensity,
         clampSpecV ((v : Nat) : ℚ) contrast intensity,
         clampSpecV ((v : Nat) : ℚ) contrast intensity)) := by
  unfold applyColorMap
  induction pixels with
  | nil => rfl
  | cons v vs ih =>
    simp only [List.map_cons, ih]
    congr 1
    unfold applyColorMapPixel applyContrastIntensity clampSpecV
    simp only [Bool.false_eq_true, if_false]
    rw [max_min_distrib_left 0 255 (((((v : Nat) : ℚ) - 128) * contrast + 128) * intensity)]
    norm_num [min_comm]
